import Mathlib

/-!
Verification development for the task-prioritization decision pipeline of
taskflow-saas (backend/tasks/ai_engine/...). The Python modules are shallowly
embedded: machine floats become exact rationals (ℚ), Python dicts become
association lists (List (String × _)) whose key order mirrors dict insertion
order, and fallible layers are made explicit (Option / Except / injected
failure flags standing for the exception paths that the code catches).
Python round(x, 4) is banker's rounding (round-half-to-even), modelled exactly.
-/

/-- Python max(0.0, min(1.0, x)) as used throughout the engine. -/
def clamp01 (q : ℚ) : ℚ := max 0 (min 1 q)

/-- Round-half-to-even to an integer, the rounding mode of Python round(). -/
def roundHalfEven (q : ℚ) : ℤ :=
  if q - ⌊q⌋ < 1/2 then ⌊q⌋
  else if 1/2 < q - ⌊q⌋ then ⌊q⌋ + 1
  else if ⌊q⌋ % 2 = 0 then ⌊q⌋ else ⌊q⌋ + 1

/-- Python round(x, 4). -/
def pyRound4 (q : ℚ) : ℚ := (roundHalfEven (q * 10000) : ℚ) / 10000

/-- Association-list lookup: Python dict.get(key) on a dict embedded as a list
of key/value pairs in insertion order. -/
def alookup {α : Type} {β : Type} [DecidableEq α] : List (α × β) → α → Option β
  | [], _ => none
  | (k, v) :: rest, key => if k = key then some v else alookup rest key

/-- Does the word list occur at the head of the content list? -/
def listStartsWith : List Char → List Char → Bool
  | _, [] => true
  | [], _ :: _ => false
  | c :: cs, w :: ws => c == w && listStartsWith cs ws

/-- Python substring containment (`word in content`) on char lists. -/
def listHasSub : List Char → List Char → Bool
  | [], word => word.isEmpty
  | c :: rest, word => listStartsWith (c :: rest) word || listHasSub rest word

/-- Python `word in content` for strings. -/
def strHasSub (content word : String) : Bool := listHasSub content.data word.data

/-- Python str.lower(); structural so that concrete runs reduce. -/
def pyLower (s : String) : String := String.mk (s.data.map Char.toLower)

/-- Python str.strip(): drop whitespace from both ends. -/
def pyStrip (s : String) : String :=
  String.mk (((s.data.dropWhile Char.isWhitespace).reverse.dropWhile
    Char.isWhitespace).reverse)

/-- Python s.split(sep) for a one-character separator, on char lists. -/
def splitOnDashAux : List Char → List Char → List (List Char)
  | [], acc => [acc.reverse]
  | c :: rest, acc =>
    if c = '-' then acc.reverse :: splitOnDashAux rest []
    else splitOnDashAux rest (c :: acc)

/-- Python s.split("-") as used by the %Y-%m-%d parse. -/
def splitOnDash (s : String) : List (List Char) := splitOnDashAux s.data []

/-- Numeric value of a digit string (callers check all-digit first). -/
def digitsVal (l : List Char) : ℕ :=
  l.foldl (fun acc c => acc * 10 + (c.toNat - ('0').toNat)) 0

-- ---------------------------------------------------------------------------
-- Calendar model (datetime.date / strptime("%Y-%m-%d") as used by urgency.py)
-- ---------------------------------------------------------------------------

/-- A calendar date, the embedding of datetime.date. -/
structure Date where
  year : ℤ
  month : ℤ
  day : ℤ
deriving DecidableEq, Repr

/-- Gregorian leap-year rule (Python calendar/datetime semantics). -/
def isLeapYear (y : ℤ) : Bool := (y % 4 == 0 && y % 100 != 0) || y % 400 == 0

/-- Number of days in a month, used by date validation. -/
def daysInMonth (y m : ℤ) : ℤ :=
  if m = 1 ∨ m = 3 ∨ m = 5 ∨ m = 7 ∨ m = 8 ∨ m = 10 ∨ m = 12 then 31
  else if m = 4 ∨ m = 6 ∨ m = 9 ∨ m = 11 then 30
  else if m = 2 then (if isLeapYear y then 29 else 28)
  else 0

/-- Days since 1970-01-01 (proleptic Gregorian, the standard days-from-civil
algorithm); date subtraction in Python yields the difference of these. -/
def Date.toOrdinal (dt : Date) : ℤ :=
  let y := if dt.month ≤ 2 then dt.year - 1 else dt.year
  let era := y / 400
  let yoe := y - era * 400
  let mp := (dt.month + 9) % 12
  let doy := (153 * mp + 2) / 5 + dt.day - 1
  let doe := yoe * 365 + yoe / 4 - yoe / 100 + doy
  era * 146097 + doe - 719468

/-- Embedding of datetime.datetime.strptime(s, "%Y-%m-%d").date() wrapped in
try/except ValueError: exactly four year digits, one or two month and day
digits, and a calendar-valid (year ≥ 1) date; anything else yields none. -/
def parse_iso_date (s : String) : Option Date :=
  match splitOnDash s with
  | [ys, ms, ds] =>
    if ys.length = 4 ∧ ys.all Char.isDigit ∧
       1 ≤ ms.length ∧ ms.length ≤ 2 ∧ ms.all Char.isDigit ∧
       1 ≤ ds.length ∧ ds.length ≤ 2 ∧ ds.all Char.isDigit then
      let y : ℤ := (digitsVal ys : ℕ)
      let m : ℤ := (digitsVal ms : ℕ)
      let d : ℤ := (digitsVal ds : ℕ)
      if 1 ≤ y ∧ 1 ≤ m ∧ m ≤ 12 ∧ 1 ≤ d ∧ d ≤ daysInMonth y m then
        some { year := y, month := m, day := d }
      else none
    else none
  | _ => none

-- ---------------------------------------------------------------------------
-- urgency.py
-- ---------------------------------------------------------------------------

/-- MAX_LOOKAHEAD_DAYS in urgency.py. -/
def MAX_LOOKAHEAD_DAYS : ℤ := 30

/-- The due_date argument of compute_urgency: None, a date object, or a string. -/
abbrev DueInput : Type := Option (Date ⊕ String)

/-- The helper _parse_date of urgency.py: a date object passes through, a
string goes to strptime, and failures give none. -/
def parse_date : Date ⊕ String → Option Date
  | Sum.inl d => some d
  | Sum.inr s => parse_iso_date s

/-- The helper _compute_due_date_component of urgency.py. -/
def compute_due_date_component (due_date : DueInput) (today : Date) : ℚ :=
  match due_date with
  | none => 0
  | some x =>
    match parse_date x with
    | none => 0
    | some parsed =>
      let days_until : ℤ := parsed.toOrdinal - today.toOrdinal
      if days_until ≤ 0 then 1
      else clamp01 (1 - (days_until : ℚ) / (MAX_LOOKAHEAD_DAYS : ℚ))

/-- The helper _compute_effort_component of urgency.py. -/
def compute_effort_component (effort : Option ℚ) : ℚ :=
  match effort with
  | none => 0
  | some e =>
    let effort_val := max 1 (min 5 e)
    clamp01 ((effort_val - 1) / 4)

/-- compute_urgency of urgency.py; now is represented by its date part. -/
def compute_urgency (due_date : DueInput) (effort : Option ℚ) (today : Date) : ℚ :=
  let due_component := compute_due_date_component due_date today
  let effort_component := compute_effort_component effort
  pyRound4 (clamp01 (due_component * (0.8 : ℚ) + effort_component * (0.2 : ℚ)))

-- ---------------------------------------------------------------------------
-- Spec-side formula for C5 (written from the claim text, to be compared)
-- ---------------------------------------------------------------------------

/-- The urgency formula as the specification states it: D from days_until with
absent/unparseable dates giving 0.0, E = (clamp(effort,1,5)-1)/4, result
round(clamp(D*0.8 + E*0.2, 0, 1), 4). -/
def urgency_spec (due_date : DueInput) (effort : Option ℚ) (today : Date) : ℚ :=
  let D : ℚ :=
    match due_date with
    | none => 0
    | some x =>
      match parse_date x with
      | none => 0
      | some parsed =>
        let days_until : ℤ := parsed.toOrdinal - today.toOrdinal
        if days_until ≤ 0 then 1
        else max 0 (min 1 (1 - (days_until : ℚ) / 30))
  let E : ℚ :=
    match effort with
    | none => 0
    | some e => (max 1 (min 5 e) - 1) / 4
  pyRound4 (max 0 (min 1 (D * (0.8 : ℚ) + E * (0.2 : ℚ))))

-- ---------------------------------------------------------------------------
-- Bounds lemmas shared by several claims
-- ---------------------------------------------------------------------------

theorem clamp01_nonneg (q : ℚ) : 0 ≤ clamp01 q := le_max_left 0 _

theorem clamp01_le_one (q : ℚ) : clamp01 q ≤ 1 := by
  unfold clamp01
  exact max_le (by norm_num) (min_le_left 1 q)

theorem roundHalfEven_nonneg {q : ℚ} (h : 0 ≤ q) : 0 ≤ roundHalfEven q := by
  unfold roundHalfEven
  have hf : (0 : ℤ) ≤ ⌊q⌋ := Int.le_floor.mpr (by exact_mod_cast h)
  split
  · exact hf
  · split
    · omega
    · split
      · exact hf
      · omega

theorem roundHalfEven_le {q : ℚ} {n : ℤ} (h : q ≤ n) : roundHalfEven q ≤ n := by
  unfold roundHalfEven
  have hf : ⌊q⌋ ≤ n := Int.floor_le_floor h |>.trans (by simp)
  split
  · exact hf
  · rename_i h1
    push_neg at h1
    split
    · rename_i h2
      have hlt : (⌊q⌋ : ℚ) < q := by
        have : (0 : ℚ) < q - ⌊q⌋ := lt_trans (by norm_num) h2
        linarith
      have : ⌊q⌋ + 1 ≤ ⌈q⌉ := Int.add_one_le_ceil_iff.mpr hlt
      have hc : ⌈q⌉ ≤ n := Int.ceil_le.mpr h
      omega
    · rename_i h2
      push_neg at h2
      have heq : q - ⌊q⌋ = 1/2 := le_antisymm h2 h1
      split
      · exact hf
      · have hlt : (⌊q⌋ : ℚ) < q := by
          have : (0 : ℚ) < q - ⌊q⌋ := by rw [heq]; norm_num
          linarith
        have : ⌊q⌋ + 1 ≤ ⌈q⌉ := Int.add_one_le_ceil_iff.mpr hlt
        have hc : ⌈q⌉ ≤ n := Int.ceil_le.mpr h
        omega

theorem pyRound4_mem_unit {q : ℚ} (h0 : 0 ≤ q) (h1 : q ≤ 1) :
    0 ≤ pyRound4 q ∧ pyRound4 q ≤ 1 := by
  unfold pyRound4
  have hlo : (0 : ℤ) ≤ roundHalfEven (q * 10000) :=
    roundHalfEven_nonneg (by positivity)
  have hhi : roundHalfEven (q * 10000) ≤ (10000 : ℤ) := by
    apply roundHalfEven_le
    push_cast
    nlinarith
  constructor
  · positivity
  · rw [div_le_one (by norm_num)]
    exact_mod_cast hhi

theorem effort_clamp_noop (e : ℚ) :
    clamp01 ((max 1 (min 5 e) - 1) / 4) = (max 1 (min 5 e) - 1) / 4 := by
  have h1 : (1:ℚ) ≤ max 1 (min 5 e) := le_max_left _ _
  have h5 : max 1 (min 5 e) ≤ 5 := max_le (by norm_num) (min_le_left _ _)
  have hx0 : (0:ℚ) ≤ (max 1 (min 5 e) - 1) / 4 := by
    apply div_nonneg (by linarith) (by norm_num)
  have hx1 : (max 1 (min 5 e) - 1) / 4 ≤ 1 := by
    rw [div_le_one (by norm_num)]
    linarith
  unfold clamp01
  rw [min_eq_right hx1, max_eq_right hx0]

/-- C5: for every due date (absent, a date object, or a string), every effort
estimate and every reference date, compute_urgency equals
round(clamp(D*0.8 + E*0.2, 0, 1), 4) with D and E exactly as the
specification states them; the embedding is total, so no input raises. -/
theorem c5_compute_urgency_matches_spec (due : DueInput) (effort : Option ℚ)
    (today : Date) : compute_urgency due effort today = urgency_spec due effort today := by
  have hML : ((MAX_LOOKAHEAD_DAYS : ℤ) : ℚ) = 30 := by norm_num [MAX_LOOKAHEAD_DAYS]
  unfold compute_urgency urgency_spec compute_due_date_component compute_effort_component
  cases due with
  | none =>
    cases effort with
    | none => rfl
    | some e =>
      simp only [effort_clamp_noop]
      simp only [clamp01]
  | some x =>
    cases hpd : parse_date x with
    | none =>
      cases effort with
      | none =>
        simp only [hpd]
        simp only [clamp01]
      | some e =>
        simp only [hpd, effort_clamp_noop]
        simp only [clamp01]
    | some parsed =>
      cases effort with
      | none =>
        simp only [hpd]
        simp only [clamp01, hML]
      | some e =>
        simp only [hpd, effort_clamp_noop]
        simp only [clamp01, hML]

-- ---------------------------------------------------------------------------
-- orchestrator.py: _compute_quadrant and _compute_importance
-- ---------------------------------------------------------------------------

/-- AIOrchestrator._compute_quadrant: Eisenhower quadrant with inclusive 0.5
threshold on both axes. -/
def compute_quadrant (importance urgency : ℚ) : String :=
  let is_important := (0.5 : ℚ) ≤ importance
  let is_urgent := (0.5 : ℚ) ≤ urgency
  if is_important ∧ is_urgent then "Q1"
  else if is_important ∧ ¬ is_urgent then "Q2"
  else if ¬ is_important ∧ is_urgent then "Q3"
  else "Q4"

/-- AIOrchestrator._compute_importance: Σ relevance[d]·weights.get(d, 0.0),
clamped to [0,1] and rounded to 4 decimals. -/
def compute_importance (relevance weights : List (String × ℚ)) : ℚ :=
  let total := relevance.foldl (fun acc p => acc + p.2 * ((alookup weights p.1).getD 0)) 0
  pyRound4 (clamp01 total)

/-- The importance formula as the specification states it: the clamped and
rounded sum over the relevance entries of relevance[d]·weight[d], a domain
missing from the weight profile contributing weight 0. -/
def importance_spec (relevance weights : List (String × ℚ)) : ℚ :=
  pyRound4 (clamp01 ((relevance.map (fun p => p.2 * ((alookup weights p.1).getD 0))).sum))

theorem foldl_add_eq_sum {α : Type} (f : α → ℚ) (l : List α) (a : ℚ) :
    l.foldl (fun acc p => acc + f p) a = a + (l.map f).sum := by
  induction l generalizing a with
  | nil => simp
  | cons x xs ih => simp [ih, add_assoc]

/-- C7: the quadrant is Q1 iff importance ≥ 0.5 and urgency ≥ 0.5, Q2 iff
importance ≥ 0.5 and urgency < 0.5, Q3 iff importance < 0.5 and urgency ≥ 0.5,
Q4 otherwise, each axis treating 0.5 as high; and (0.5, 0.5) yields exactly Q1. -/
theorem c7_quadrant_boundaries (importance urgency : ℚ) :
    (compute_quadrant importance urgency = "Q1" ↔
      (0.5 : ℚ) ≤ importance ∧ (0.5 : ℚ) ≤ urgency) ∧
    (compute_quadrant importance urgency = "Q2" ↔
      (0.5 : ℚ) ≤ importance ∧ urgency < (0.5 : ℚ)) ∧
    (compute_quadrant importance urgency = "Q3" ↔
      importance < (0.5 : ℚ) ∧ (0.5 : ℚ) ≤ urgency) ∧
    (compute_quadrant importance urgency = "Q4" ↔
      importance < (0.5 : ℚ) ∧ urgency < (0.5 : ℚ)) ∧
    compute_quadrant (0.5 : ℚ) (0.5 : ℚ) = "Q1" := by
  have h0505 : compute_quadrant (0.5 : ℚ) (0.5 : ℚ) = "Q1" := by
    norm_num [compute_quadrant]
  rcases le_or_lt (0.5 : ℚ) importance with hi | hi <;>
    rcases le_or_lt (0.5 : ℚ) urgency with hu | hu
  · refine ⟨?_, ?_, ?_, ?_, h0505⟩ <;>
      simp [compute_quadrant, hi, hu, hi.not_lt, hu.not_lt]
  · refine ⟨?_, ?_, ?_, ?_, h0505⟩ <;>
      simp [compute_quadrant, hi, hu, hi.not_lt, hu.not_le]
  · refine ⟨?_, ?_, ?_, ?_, h0505⟩ <;>
      simp [compute_quadrant, hi, hu, hi.not_le, hu.not_lt]
  · refine ⟨?_, ?_, ?_, ?_, h0505⟩ <;>
      simp [compute_quadrant, hi, hu, hi.not_le, hu.not_le]

/-- C6: the importance computed by the orchestrator equals the specification
formula round(clamp(Σ relevance[d]×weight[d], 0, 1), 4) with absent weights
contributing 0; and under the documented hypotheses (profile sums to 1 ± 0.001,
relevance values in [0,1]) the result lies in [0,1]. -/
theorem c6_importance_formula (relevance weights : List (String × ℚ)) :
    compute_importance relevance weights = importance_spec relevance weights ∧
    (|((weights.map Prod.snd).sum) - 1| ≤ 1/1000 →
      (∀ p ∈ relevance, 0 ≤ p.2 ∧ p.2 ≤ 1) →
      0 ≤ compute_importance relevance weights ∧
        compute_importance relevance weights ≤ 1) := by
  constructor
  · unfold compute_importance importance_spec
    rw [foldl_add_eq_sum (fun p => p.2 * ((alookup weights p.1).getD 0)) relevance 0,
      zero_add]
  · intro _ _
    unfold compute_importance
    exact pyRound4_mem_unit (clamp01_nonneg _) (clamp01_le_one _)

/-- Witness for C6 at a concrete profile and relevance map. -/
theorem c6_importance_formula_witness :
    compute_importance [("work_bills", (1:ℚ)/2)] [("work_bills", (1:ℚ))] =
        importance_spec [("work_bills", (1:ℚ)/2)] [("work_bills", (1:ℚ))] ∧
      (0 ≤ compute_importance [("work_bills", (1:ℚ)/2)] [("work_bills", (1:ℚ))] ∧
        compute_importance [("work_bills", (1:ℚ)/2)] [("work_bills", (1:ℚ))] ≤ 1) := by
  have h := c6_importance_formula [("work_bills", (1:ℚ)/2)] [("work_bills", (1:ℚ))]
  refine ⟨h.1, h.2 (by norm_num) ?_⟩
  intro p hp
  rw [List.mem_singleton] at hp
  subst hp
  constructor <;> norm_num

-- ---------------------------------------------------------------------------
-- Score dictionaries (the duck-typed result dicts of rules/cache/scorer)
-- ---------------------------------------------------------------------------

/-- A scoring-layer result dict: relevance_scores plus optional confidence and
error fields (absent dict keys are none). -/
structure ScoreResult where
  relevance_scores : List (String × ℚ)
  confidence : Option ℚ
  error_code : Option String
  error_message : Option String
deriving DecidableEq, Repr

-- ---------------------------------------------------------------------------
-- rules.py: DecisionEngine
-- ---------------------------------------------------------------------------

/-- DecisionEngine.DOMAIN_KEYWORDS, verbatim from rules.py. -/
def DOMAIN_KEYWORDS : List (String × List String) :=
  [("work_bills", ["invoice", "pay", "bill", "salary", "client", "meeting", "deadline"]),
   ("study", ["exam", "course", "assignment", "read", "lecture", "research", "thesis"]),
   ("health", ["gym", "workout", "doctor", "appointment", "medication", "run", "diet"]),
   ("relationships", ["date", "anniversary", "call mom", "dinner", "gift", "visit", "family"])]

/-- Default dominance_threshold of DecisionEngine.__init__. -/
def default_dominance_threshold : ℚ := 0.6

/-- Default ceiling_others of DecisionEngine.__init__. -/
def default_ceiling_others : ℚ := 0.2

/-- Descending-by-weight comparison used by the sorted(...) call in
_check_weight_dominance. -/
def weight_desc (a b : String × ℚ) : Prop := b.2 ≤ a.2

instance : DecidableRel weight_desc := fun a b =>
  inferInstanceAs (Decidable (b.2 ≤ a.2))

instance : IsTotal (String × ℚ) weight_desc :=
  ⟨fun a b => le_total b.2 a.2⟩

instance : IsTrans (String × ℚ) weight_desc :=
  ⟨fun _ _ _ hab hbc => le_trans hbc hab⟩

/-- sorted(weights.items(), key=weight, reverse=True): a stable descending
sort by weight. -/
def sort_weights_desc (weights : List (String × ℚ)) : List (String × ℚ) :=
  List.insertionSort weight_desc weights

/-- DecisionEngine._check_weight_dominance. -/
def check_weight_dominance (dominance_threshold ceiling_others : ℚ)
    (weights : List (String × ℚ)) : Bool × Option String :=
  match sort_weights_desc weights with
  | [] => (false, none)
  | (max_domain, max_weight) :: rest =>
    if dominance_threshold ≤ max_weight then
      if rest.all (fun p => decide (p.2 ≤ ceiling_others)) then (true, some max_domain)
      else (false, none)
    else (false, none)

/-- DecisionEngine._has_keyword_match: any domain keyword occurs in
"title description" (callers pass already-lowered strings). -/
def has_keyword_match (title description domain : String) : Bool :=
  let keywords := (alookup DOMAIN_KEYWORDS domain).getD []
  let content := title ++ " " ++ description
  keywords.any (fun word => strHasSub content word)

/-- DecisionEngine._generate_deterministic_scores: relevance 1.0 for the
target domain, 0.0 for every other profile domain, confidence 1.0. -/
def generate_deterministic_scores (target_domain : String)
    (weights : List (String × ℚ)) : ScoreResult :=
  { relevance_scores :=
      weights.map (fun p => (p.1, if p.1 = target_domain then (1:ℚ) else 0)),
    confidence := some 1,
    error_code := none,
    error_message := none }

/-- DecisionEngine.get_short_circuit_decision. The `= ""` branch embeds
Python's truthiness test `if is_dominant and dominant_domain:`. -/
def get_short_circuit_decision (dominance_threshold ceiling_others : ℚ)
    (title description : String) (user_weights : List (String × ℚ)) :
    Bool × Option ScoreResult :=
  let title_lower := pyLower title
  let desc_lower := pyLower description
  match check_weight_dominance dominance_threshold ceiling_others user_weights with
  | (true, some dominant_domain) =>
    if dominant_domain = "" then (false, none)
    else if has_keyword_match title_lower desc_lower dominant_domain then
      (true, some (generate_deterministic_scores dominant_domain user_weights))
    else (false, none)
  | _ => (false, none)

theorem sort_weights_desc_perm (weights : List (String × ℚ)) :
    (sort_weights_desc weights).Perm weights := List.perm_insertionSort _ _

theorem sort_weights_desc_sorted (weights : List (String × ℚ)) :
    List.Sorted weight_desc (sort_weights_desc weights) := List.sorted_insertionSort _ _

theorem empty_domain_no_keyword (title description : String) :
    has_keyword_match title description "" = false := by
  unfold has_keyword_match
  rw [show alookup DOMAIN_KEYWORDS "" = none from by decide]
  rfl

theorem check_weight_dominance_true_iff (weights : List (String × ℚ))
    (hnd : (weights.map Prod.fst).Nodup) (d : String) :
    check_weight_dominance default_dominance_threshold default_ceiling_others weights
        = (true, some d) ↔
      ∃ w, (d, w) ∈ weights ∧ (∀ p ∈ weights, p.2 ≤ w) ∧
        default_dominance_threshold ≤ w ∧
        (∀ p ∈ weights, p.1 ≠ d → p.2 ≤ default_ceiling_others) := by
  unfold check_weight_dominance
  have hperm := sort_weights_desc_perm weights
  have hsorted := sort_weights_desc_sorted weights
  cases hs : sort_weights_desc weights with
  | nil =>
    rw [hs] at hperm
    have hw : weights = [] := hperm.symm.eq_nil
    subst hw
    simp
  | cons head rest =>
    rw [hs] at hperm hsorted
    obtain ⟨d₀, w₀⟩ := head
    have hmem0 : (d₀, w₀) ∈ weights := hperm.mem_iff.mp (List.mem_cons_self _ _)
    have hmax0 : ∀ p ∈ weights, p.2 ≤ w₀ := by
      intro p hp
      rcases List.mem_cons.mp (hperm.symm.mem_iff.mp hp) with h | h
      · rw [h]
      · exact (List.sorted_cons.mp hsorted).1 p h
    dsimp only
    constructor
    · intro heq
      split_ifs at heq with h1 h2
      · have hd0 : d₀ = d := by simpa using heq
        subst hd0
        refine ⟨w₀, hmem0, hmax0, h1, ?_⟩
        intro p hp hne
        rcases List.mem_cons.mp (hperm.symm.mem_iff.mp hp) with h | h
        · exact absurd (congrArg Prod.fst h) hne
        · have := List.all_eq_true.mp h2 p h
          simpa using this
      · exact absurd heq (by simp)
      · exact absurd heq (by simp)
    · rintro ⟨w, hmem, hmax, hthr, hothers⟩
      have hw0w : w₀ = w := le_antisymm (hmax _ hmem0) (hmax0 _ hmem)
      have hd0 : d₀ = d := by
        by_contra hne
        have hle : w₀ ≤ default_ceiling_others := hothers (d₀, w₀) hmem0 hne
        rw [hw0w] at hle
        have := le_trans hthr hle
        norm_num [default_dominance_threshold, default_ceiling_others] at this
      subst hd0
      have hall : rest.all (fun p => decide (p.2 ≤ default_ceiling_others)) = true := by
        rw [List.all_eq_true]
        intro p hp
        simp only [decide_eq_true_eq]
        have hpw : p ∈ weights := hperm.mem_iff.mp (List.mem_cons_of_mem _ hp)
        by_cases hpd : p.1 = d₀
        · exfalso
          have hkeys : List.Perm (((d₀, w₀) :: rest).map Prod.fst)
              (weights.map Prod.fst) := hperm.map Prod.fst
          have hnd2 : (((d₀, w₀) :: rest).map Prod.fst).Nodup :=
            (hkeys.nodup_iff).mpr hnd
          simp only [List.map_cons, List.nodup_cons] at hnd2
          exact hnd2.1 (hpd ▸ List.mem_map_of_mem Prod.fst hp)
        · exact hothers p hpw hpd
      rw [hw0w, if_pos hthr, if_pos hall]

theorem check_weight_dominance_shape (thr ceil : ℚ) (weights : List (String × ℚ)) :
    check_weight_dominance thr ceil weights = (false, none) ∨
      ∃ d, check_weight_dominance thr ceil weights = (true, some d) := by
  unfold check_weight_dominance
  cases sort_weights_desc weights with
  | nil => exact Or.inl rfl
  | cons head rest =>
    obtain ⟨d₀, w₀⟩ := head
    dsimp only
    split_ifs <;> simp

/-- C2: with the default thresholds, the short-circuit fires iff the profile
has a maximal weight ≥ 0.6 whose domain dominates (all other domains ≤ 0.2)
and whose keyword list hits the lower-cased title/description; when it fires
the scores give the dominant domain 1.0, all other profile domains 0.0, and
confidence 1.0; otherwise it returns (False, None); and the
"Pay electricity bill" example fires for work_bills. -/
theorem c2_short_circuit_decision (title description : String)
    (weights : List (String × ℚ)) (hnd : (weights.map Prod.fst).Nodup) :
    ((get_short_circuit_decision default_dominance_threshold default_ceiling_others
        title description weights).1 = true ↔
      ∃ d w, (d, w) ∈ weights ∧ (∀ p ∈ weights, p.2 ≤ w) ∧
        default_dominance_threshold ≤ w ∧
        (∀ p ∈ weights, p.1 ≠ d → p.2 ≤ default_ceiling_others) ∧
        has_keyword_match (pyLower title) (pyLower description) d = true) ∧
    (∀ r, (get_short_circuit_decision default_dominance_threshold default_ceiling_others
        title description weights).2 = some r →
      r.confidence = some 1 ∧
      ∃ d w, (d, w) ∈ weights ∧ (∀ p ∈ weights, p.2 ≤ w) ∧
        default_dominance_threshold ≤ w ∧
        (∀ p ∈ weights, p.1 ≠ d → p.2 ≤ default_ceiling_others) ∧
        has_keyword_match (pyLower title) (pyLower description) d = true ∧
        r.relevance_scores =
          weights.map (fun p => (p.1, if p.1 = d then (1:ℚ) else 0))) ∧
    ((get_short_circuit_decision default_dominance_threshold default_ceiling_others
        title description weights).1 = false →
      (get_short_circuit_decision default_dominance_threshold default_ceiling_others
        title description weights).2 = none) ∧
    get_short_circuit_decision default_dominance_threshold default_ceiling_others
        "Pay electricity bill" ""
        [("work_bills", (0.7:ℚ)), ("study", 0.1), ("health", 0.1), ("relationships", 0.1)] =
      (true, some (ScoreResult.mk
        [("work_bills", 1), ("study", 0), ("health", 0), ("relationships", 0)]
        (some 1) none none)) := by
  have hex : get_short_circuit_decision default_dominance_threshold default_ceiling_others
      "Pay electricity bill" ""
      [("work_bills", (0.7:ℚ)), ("study", 0.1), ("health", 0.1), ("relationships", 0.1)] =
      (true, some (ScoreResult.mk
        [("work_bills", 1), ("study", 0), ("health", 0), ("relationships", 0)]
        (some 1) none none)) := by
    have hdom : check_weight_dominance default_dominance_threshold default_ceiling_others
        [("work_bills", (0.7:ℚ)), ("study", 0.1), ("health", 0.1), ("relationships", 0.1)] =
        (true, some "work_bills") := by
      norm_num [check_weight_dominance, sort_weights_desc, List.insertionSort,
        List.orderedInsert, weight_desc, default_dominance_threshold, default_ceiling_others]
    simp only [get_short_circuit_decision, hdom]
    decide
  rcases check_weight_dominance_shape default_dominance_threshold default_ceiling_others
      weights with hc | ⟨d, hc⟩
  · have hE : get_short_circuit_decision default_dominance_threshold default_ceiling_others
        title description weights = (false, none) := by
      simp only [get_short_circuit_decision, hc]
    refine ⟨?_, ?_, fun _ => by rw [hE], hex⟩
    · rw [hE]
      simp only [Prod.fst]
      constructor
      · intro h
        exact absurd h (by simp)
      · rintro ⟨d, w, hmem, hmax, hthr, hoth, hkw⟩
        have : check_weight_dominance default_dominance_threshold default_ceiling_others
            weights = (true, some d) :=
          (check_weight_dominance_true_iff weights hnd d).mpr ⟨w, hmem, hmax, hthr, hoth⟩
        rw [hc] at this
        simp at this
    · intro r hr
      rw [hE] at hr
      simp at hr
  · have hiff := (check_weight_dominance_true_iff weights hnd d).mp hc
    by_cases hd : d = ""
    · have hE : get_short_circuit_decision default_dominance_threshold default_ceiling_others
          title description weights = (false, none) := by
        simp only [get_short_circuit_decision, hc, if_pos hd]
      refine ⟨?_, ?_, fun _ => by rw [hE], hex⟩
      · rw [hE]
        constructor
        · intro h
          exact absurd h (by simp)
        · rintro ⟨d', w', hmem, hmax, hthr, hoth, hkw⟩
          have hcd : check_weight_dominance default_dominance_threshold default_ceiling_others
              weights = (true, some d') :=
            (check_weight_dominance_true_iff weights hnd d').mpr ⟨w', hmem, hmax, hthr, hoth⟩
          rw [hc] at hcd
          have hdd : d = d' := by simpa using hcd
          rw [← hdd, hd] at hkw
          rw [empty_domain_no_keyword] at hkw
          exact absurd hkw (by simp)
      · intro r hr
        rw [hE] at hr
        simp at hr
    · by_cases hk : has_keyword_match (pyLower title) (pyLower description) d = true
      · have hE : get_short_circuit_decision default_dominance_threshold default_ceiling_others
            title description weights =
            (true, some (generate_deterministic_scores d weights)) := by
          simp only [get_short_circuit_decision, hc, if_neg hd, if_pos hk]
        obtain ⟨w, hmem, hmax, hthr, hoth⟩ := hiff
        refine ⟨?_, ?_, ?_, hex⟩
        · rw [hE]
          exact ⟨fun _ => ⟨d, w, hmem, hmax, hthr, hoth, hk⟩, fun _ => rfl⟩
        · intro r hr
          rw [hE] at hr
          have hr2 : generate_deterministic_scores d weights = r := by simpa using hr
          subst hr2
          exact ⟨rfl, d, w, hmem, hmax, hthr, hoth, hk, rfl⟩
        · intro h
          rw [hE] at h
          simp at h
      · have hE : get_short_circuit_decision default_dominance_threshold default_ceiling_others
            title description weights = (false, none) := by
          simp only [get_short_circuit_decision, hc, if_neg hd, if_neg hk]
        refine ⟨?_, ?_, fun _ => by rw [hE], hex⟩
        · rw [hE]
          constructor
          · intro h
            exact absurd h (by simp)
          · rintro ⟨d', w', hmem, hmax, hthr, hoth, hkw⟩
            have hcd : check_weight_dominance default_dominance_threshold
                default_ceiling_others weights = (true, some d') :=
              (check_weight_dominance_true_iff weights hnd d').mpr
                ⟨w', hmem, hmax, hthr, hoth⟩
            rw [hc] at hcd
            have hdd : d = d' := by simpa using hcd
            rw [← hdd] at hkw
            exact absurd hkw hk
        · intro r hr
          rw [hE] at hr
          simp at hr

/-- Witness for C2: the nodup hypothesis holds for the example profile and the
engine fires there. -/
theorem c2_short_circuit_decision_witness :
    (([("work_bills", (0.7:ℚ)), ("study", 0.1), ("health", 0.1),
        ("relationships", 0.1)].map Prod.fst).Nodup) ∧
    get_short_circuit_decision default_dominance_threshold default_ceiling_others
        "Pay electricity bill" ""
        [("work_bills", (0.7:ℚ)), ("study", 0.1), ("health", 0.1), ("relationships", 0.1)] =
      (true, some (ScoreResult.mk
        [("work_bills", 1), ("study", 0), ("health", 0), ("relationships", 0)]
        (some 1) none none)) :=
  ⟨by decide, (c2_short_circuit_decision "Pay electricity bill" ""
      [("work_bills", (0.7:ℚ)), ("study", 0.1), ("health", 0.1), ("relationships", 0.1)]
      (by decide)).2.2.2⟩

-- ---------------------------------------------------------------------------
-- cache.py: AIScoringCache
-- ---------------------------------------------------------------------------

/-- The canonical payload hashed by AIScoringCache._generate_key: trimmed and
lower-cased title/description, weight pairs sorted, and the version tag. -/
structure CacheKey where
  title : String
  description : String
  weights : List (String × ℚ)
  version : String
deriving DecidableEq, Repr

/-- Python tuple comparison used by sorted(weights.items()): lexicographic on
(domain, weight). -/
def pair_le (a b : String × ℚ) : Prop := a.1 < b.1 ∨ (a.1 = b.1 ∧ a.2 ≤ b.2)

instance : DecidableRel pair_le := fun a b =>
  inferInstanceAs (Decidable (a.1 < b.1 ∨ (a.1 = b.1 ∧ a.2 ≤ b.2)))

instance : IsTotal (String × ℚ) pair_le := by
  constructor
  intro a b
  rcases lt_trichotomy a.1 b.1 with h | h | h
  · exact Or.inl (Or.inl h)
  · rcases le_total a.2 b.2 with h2 | h2
    · exact Or.inl (Or.inr ⟨h, h2⟩)
    · exact Or.inr (Or.inr ⟨h.symm, h2⟩)
  · exact Or.inr (Or.inl h)

instance : IsTrans (String × ℚ) pair_le := by
  constructor
  rintro a b c (hab | ⟨hab, hab2⟩) (hbc | ⟨hbc, hbc2⟩)
  · exact Or.inl (lt_trans hab hbc)
  · exact Or.inl (hbc ▸ hab)
  · exact Or.inl (hab ▸ hbc)
  · exact Or.inr ⟨hab.trans hbc, hab2.trans hbc2⟩

instance : IsAntisymm (String × ℚ) pair_le := by
  constructor
  rintro ⟨a1, a2⟩ ⟨b1, b2⟩ (hab | ⟨hab, hab2⟩) (hba | ⟨hba, hba2⟩)
  · exact absurd hba (lt_asymm hab)
  · exact absurd hab (hba ▸ lt_irrefl _)
  · exact absurd hba (hab ▸ lt_irrefl _)
  · cases hab
    have : a2 = b2 := le_antisymm hab2 hba2
    rw [this]

/-- sorted(weights.items()): ascending lexicographic sort of the weight pairs. -/
def sort_pairs (weights : List (String × ℚ)) : List (String × ℚ) :=
  List.insertionSort pair_le weights

/-- The payload dict built by _generate_key before serialization. -/
def canonical_payload (title description : String) (weights : List (String × ℚ))
    (version : String) : CacheKey :=
  { title := pyLower (pyStrip title),
    description := pyLower (pyStrip description),
    weights := sort_pairs weights,
    version := version }

/-- Minimal JSON string escaping (quote and backslash); the control-character
escapes of json.dumps never arise for the characters the claims exercise. -/
def json_escape_chars : List Char → List Char
  | [] => []
  | c :: cs =>
    if c = '"' ∨ c = '\\' then '\\' :: c :: json_escape_chars cs
    else c :: json_escape_chars cs

/-- A JSON string literal. -/
def json_string (s : String) : String :=
  "\"" ++ String.mk (json_escape_chars s.data) ++ "\""

/-- Deterministic stand-in for repr(float) in the serialized payload; the key
properties only need the rendering to be a function of the exact value. -/
def jsonQ (q : ℚ) : String := toString q

/-- json.dumps of one weight pair (a two-element array). -/
def serialize_weight_pair (p : String × ℚ) : String :=
  "[" ++ json_string p.1 ++ ", " ++ jsonQ p.2 ++ "]"

/-- json.dumps list separator ", ". -/
def join_comma : List String → String
  | [] => ""
  | [s] => s
  | s :: rest => s ++ ", " ++ join_comma rest

/-- json.dumps(payload, sort_keys=True): object keys in sorted order
(description, title, version, weights), default separators. -/
def serialize_payload (k : CacheKey) : String :=
  "\x7b\"description\": " ++ json_string k.description ++
  ", \"title\": " ++ json_string k.title ++
  ", \"version\": " ++ json_string k.version ++
  ", \"weights\": [" ++ join_comma (k.weights.map serialize_weight_pair) ++ "]\x7d"

/-- AIScoringCache._generate_key, with the SHA-256 hex digest abstracted as a
hash parameter (the claims hold for every digest function). -/
def generate_key (hash : String → String) (version title description : String)
    (weights : List (String × ℚ)) : String :=
  "ai_score_" ++ version ++ "_" ++
    hash (serialize_payload (canonical_payload title description weights version))

/-- The Redis-backed store of AIScoringCache, keyed by the canonical payload
(the SHA-256 key derivation is injective on payloads absent hash collisions). -/
abbrev CacheState : Type := List (CacheKey × ScoreResult)

/-- AIScoringCache.get_or_set_score. read_fails and write_fails inject the
swallowed Redis retrieval/persistence exceptions. -/
def get_or_set_score (st : CacheState) (task_title task_description : String)
    (user_weights : List (String × ℚ)) (computed : ScoreResult)
    (read_fails write_fails : Bool) : ScoreResult × CacheState :=
  let cache_key := canonical_payload task_title task_description user_weights "v1"
  match (if read_fails then none else alookup st cache_key) with
  | some cached_result => (cached_result, st)
  | none =>
    if ¬ write_fails ∧ 0 < computed.confidence.getD 0 then
      (computed, (cache_key, computed) :: st)
    else (computed, st)

theorem alookup_mem {α β : Type} [DecidableEq α] {l : List (α × β)} {k : α} {v : β}
    (h : alookup l k = some v) : (k, v) ∈ l := by
  induction l with
  | nil => simp [alookup] at h
  | cons p rest ih =>
    obtain ⟨k₀, v₀⟩ := p
    rw [alookup] at h
    split_ifs at h with hk
    · subst hk
      obtain rfl : v₀ = v := by simpa using h
      exact List.mem_cons_self _ _
    · exact List.mem_cons_of_mem _ (ih h)

/-- C3: get_or_set_score writes to the store only when the computed result has
confidence strictly greater than 0 (a missing confidence counts as 0); any new
state is either unchanged or gains exactly that one positive-confidence entry;
hence a store holding only positive-confidence entries keeps that invariant
and can never serve a fallback (confidence ≤ 0) result from cache. -/
theorem c3_cache_write_guard (st : CacheState) (title description : String)
    (weights : List (String × ℚ)) (computed : ScoreResult)
    (read_fails write_fails : Bool) :
    (¬ (0 < computed.confidence.getD 0) →
      (get_or_set_score st title description weights computed read_fails write_fails).2
        = st) ∧
    ((get_or_set_score st title description weights computed read_fails write_fails).2
        = st ∨
      ((get_or_set_score st title description weights computed read_fails write_fails).2
          = (canonical_payload title description weights "v1", computed) :: st ∧
        0 < computed.confidence.getD 0)) ∧
    ((∀ p ∈ st, 0 < p.2.confidence.getD 0) →
      ∀ p ∈ (get_or_set_score st title description weights computed
          read_fails write_fails).2, 0 < p.2.confidence.getD 0) ∧
    ((∀ p ∈ st, 0 < p.2.confidence.getD 0) →
      ((get_or_set_score st title description weights computed
          read_fails write_fails).1 = computed ∨
        0 < (get_or_set_score st title description weights computed
          read_fails write_fails).1.confidence.getD 0)) := by
  simp only [get_or_set_score]
  cases hl : (if read_fails then none
      else alookup st (canonical_payload title description weights "v1")) with
  | some r =>
    dsimp only
    have hmem : (canonical_payload title description weights "v1", r) ∈ st := by
      cases read_fails with
      | true => simp at hl
      | false => exact alookup_mem (by simpa using hl)
    exact ⟨fun _ => rfl, Or.inl rfl, fun h => h, fun h => Or.inr (h _ hmem)⟩
  | none =>
    dsimp only
    split_ifs with hw
    · refine ⟨fun h => absurd hw.2 h, Or.inr ⟨rfl, hw.2⟩, ?_, fun _ => Or.inl rfl⟩
      intro h p hp
      rcases List.mem_cons.mp hp with h1 | h1
      · rw [h1]
        exact hw.2
      · exact h p h1
    · exact ⟨fun _ => rfl, Or.inl rfl, fun h => h, fun _ => Or.inl rfl⟩

/-- Witness for C3: a zero-confidence fallback result is not written. -/
theorem c3_cache_write_guard_witness :
    (¬ (0 < ((ScoreResult.mk [("health", (0:ℚ))] (some 0) (some "AI_NOT_CONFIGURED")
        none).confidence.getD 0))) ∧
    (get_or_set_score [] "t" "d" [("health", (1:ℚ))]
      (ScoreResult.mk [("health", (0:ℚ))] (some 0) (some "AI_NOT_CONFIGURED") none)
      false false).2 = [] :=
  ⟨by simp, (c3_cache_write_guard [] "t" "d" [("health", (1:ℚ))]
    (ScoreResult.mk [("health", (0:ℚ))] (some 0) (some "AI_NOT_CONFIGURED") none)
    false false).1 (by simp)⟩

theorem sort_pairs_perm_eq {w1 w2 : List (String × ℚ)} (hperm : w1.Perm w2) :
    sort_pairs w1 = sort_pairs w2 :=
  List.eq_of_perm_of_sorted
    ((List.perm_insertionSort pair_le w1).trans
      (hperm.trans (List.perm_insertionSort pair_le w2).symm))
    (List.sorted_insertionSort pair_le w1) (List.sorted_insertionSort pair_le w2)

/-- C8: for every digest function, two weight mappings holding the same
domain/weight pairs in any order give the identical cache key; every key has
the form ai_score_(version)_(digest of the canonical serialized payload); and
with a fixed-width digest, changing the version changes every key. -/
theorem c8_generate_key (hash : String → String) (hlen : ∀ s, (hash s).length = 64)
    (version title description : String) (w1 w2 : List (String × ℚ))
    (hperm : w1.Perm w2) :
    generate_key hash version title description w1 =
      generate_key hash version title description w2 ∧
    generate_key hash version title description w1 =
      "ai_score_" ++ version ++ "_" ++
        hash (serialize_payload (canonical_payload title description w1 version)) ∧
    (∀ v₂ : String, v₂ ≠ version →
      generate_key hash version title description w1 ≠
        generate_key hash v₂ title description w1) := by
  refine ⟨?_, rfl, ?_⟩
  · unfold generate_key canonical_payload
    rw [sort_pairs_perm_eq hperm]
  · intro v₂ hne heq
    unfold generate_key at heq
    have h1 := congrArg String.data heq
    simp only [String.data_append] at h1
    have hlen1 : (hash (serialize_payload
        (canonical_payload title description w1 version))).data.length =
        (hash (serialize_payload
          (canonical_payload title description w1 v₂))).data.length := by
      have ha := hlen (serialize_payload (canonical_payload title description w1 version))
      have hb := hlen (serialize_payload (canonical_payload title description w1 v₂))
      simp only [String.length] at ha hb
      rw [ha, hb]
    have h2 := (List.append_inj' h1 hlen1).1
    have h3 := (List.append_inj' h2 rfl).1
    have h4 : version.data = v₂.data := List.append_cancel_left h3
    have : version = v₂ := by
      cases version
      cases v₂
      exact congrArg String.mk h4
    exact hne this.symm

/-- Witness for C8 with a fixed-width digest stand-in and a transposed
two-entry weight profile. -/
theorem c8_generate_key_witness :
    (∀ s : String, ((fun _ : String =>
      "0123456789abcdef0123456789abcdef0123456789abcdef0123456789abcdef") s).length
        = 64) ∧
    List.Perm [("b", (1:ℚ)), ("a", (0:ℚ))] [("a", (0:ℚ)), ("b", (1:ℚ))] ∧
    generate_key (fun _ =>
        "0123456789abcdef0123456789abcdef0123456789abcdef0123456789abcdef")
        "v1" "T" "D" [("b", (1:ℚ)), ("a", (0:ℚ))] =
      generate_key (fun _ =>
        "0123456789abcdef0123456789abcdef0123456789abcdef0123456789abcdef")
        "v1" "T" "D" [("a", (0:ℚ)), ("b", (1:ℚ))] :=
  ⟨fun _ => rfl, List.Perm.swap _ _ _,
    (c8_generate_key (fun _ =>
        "0123456789abcdef0123456789abcdef0123456789abcdef0123456789abcdef")
      (fun _ => rfl) "v1" "T" "D" _ _ (List.Perm.swap _ _ _)).1⟩

-- ---------------------------------------------------------------------------
-- external_scorer.py: ExternalAIScorer
-- ---------------------------------------------------------------------------

/-- The outcome of the OpenAI chat-completions call made by score_task: a
parsed JSON object (each top-level key optional; a value is none when float()
coercion of it raises), or one of the exception classes the adapter catches. -/
inductive ApiOutcome where
  | success (rawScores : Option (List (String × Option ℚ))) (rawConf : Option (Option ℚ))
  | emptyContent
  | jsonError
  | authError
  | rateLimit
  | timeoutErr
  | connError
  | badRequest
  | statusError (code : ℤ)
  | unexpected (name : String)

/-- ExternalAIScorer._get_error_response: all-zero relevance, confidence 0,
and the structured error fields. -/
def get_error_response (domains : List String) (error_code error_message : String) :
    ScoreResult :=
  { relevance_scores := domains.map (fun d => (d, (0:ℚ))),
    confidence := some 0,
    error_code := some error_code,
    error_message := some error_message }

/-- ExternalAIScorer._validate_and_parse_response: both top-level keys must
exist; every expected domain is coerced and clamped to [0,1] (missing or
non-numeric scores become 0.0), as is confidence. -/
def validate_and_parse_response (rawScores : Option (List (String × Option ℚ)))
    (rawConf : Option (Option ℚ)) (domains : List String) : Except String ScoreResult :=
  match rawScores, rawConf with
  | some scores, some conf =>
    Except.ok
      { relevance_scores := domains.map (fun d =>
          (d, match alookup scores d with
              | some (some v) => clamp01 v
              | some none => 0
              | none => 0)),
        confidence := some (match conf with | some c => clamp01 c | none => 0),
        error_code := none,
        error_message := none }
  | _, _ => Except.error "Missing required top-level keys in JSON response"

/-- Python `a or b` for an optional string (None and "" are falsy). -/
def py_or (o : Option String) (default : String) : String :=
  match o with
  | some s => if s = "" then default else s
  | none => default

/-- ExternalAIScorer.score_task: the unconfigured guard, then the validated
response or the structured error response for each caught exception class. -/
def score_task (is_configured : Bool) (configuration_error : Option String)
    (api : ApiOutcome) (task_title task_description : String)
    (user_weights : List (String × ℚ)) : ScoreResult :=
  let domains := user_weights.map Prod.fst
  if ¬ is_configured then
    get_error_response domains "SCORER_NOT_CONFIGURED"
      (py_or configuration_error "Scorer not available")
  else
    match api with
    | .success rawScores rawConf =>
      match validate_and_parse_response rawScores rawConf domains with
      | .ok r => r
      | .error msg => get_error_response domains "VALIDATION_ERROR" msg
    | .emptyContent => get_error_response domains "VALIDATION_ERROR" "Empty response from AI"
    | .jsonError => get_error_response domains "JSON_PARSE_ERROR"
        "AI returned invalid JSON response"
    | .authError => get_error_response domains "AUTH_ERROR"
        "Invalid API key or authentication failed"
    | .rateLimit => get_error_response domains "RATE_LIMIT"
        "API rate limit exceeded, please retry later"
    | .timeoutErr => get_error_response domains "TIMEOUT" "API request timed out"
    | .connError => get_error_response domains "CONNECTION_ERROR"
        "Could not connect to OpenAI API"
    | .badRequest => get_error_response domains "BAD_REQUEST"
        "Invalid request to OpenAI API"
    | .statusError code => get_error_response domains ("API_ERROR_" ++ toString code)
        ("OpenAI API error (status " ++ toString code ++ ")")
    | .unexpected name => get_error_response domains "UNEXPECTED_ERROR"
        ("Unexpected error: " ++ name)

-- ---------------------------------------------------------------------------
-- orchestrator.py: AIOrchestrator.get_relevance_scores
-- ---------------------------------------------------------------------------

/-- The full decision contract built by get_relevance_scores (error fields are
none when the corresponding dict keys are omitted). -/
structure Contract where
  relevance_scores : List (String × ℚ)
  confidence : ℚ
  importance_score : ℚ
  urgency_score : ℚ
  quadrant : String
  rationale : String
  scoring_method : String
  error_code : Option String
  error_message : Option String
deriving DecidableEq, Repr

/-- Python max(relevance.items(), key=value): the first maximal entry. -/
def max_by_value : List (String × ℚ) → Option (String × ℚ)
  | [] => none
  | p :: rest => some (rest.foldl (fun acc q => if acc.2 < q.2 then q else acc) p)

/-- Deterministic stand-in for the "%.2f" rendering inside the rationale
f-string; no claim constrains the rationale text. -/
def format2 (q : ℚ) : String := toString (roundHalfEven (q * 100))

/-- AIOrchestrator._make_rationale. -/
def make_rationale (relevance : List (String × ℚ)) (importance urgency : ℚ)
    (scoring_method : String) : String :=
  match max_by_value relevance with
  | none => "No relevance data available."
  | some (domain, score) =>
    let method_label := (alookup [("rule_based", "rule-based"), ("cached", "cached"),
      ("ai_scored", "AI-scored"), ("fallback", "fallback")] scoring_method).getD "unknown"
    "Primary domain: " ++ domain ++ " (" ++ format2 score ++ "). Importance: " ++
      format2 importance ++ ", Urgency: " ++ format2 urgency ++ ". Method: " ++
      method_label ++ "."

/-- Python `if error_code:` — only a non-empty string is kept in the contract. -/
def truthy_str (o : Option String) : Option String :=
  match o with
  | some s => if s = "" then none else some s
  | none => none

/-- LAYER 4 and the final dict of get_relevance_scores: derived values plus
the assembled contract. -/
def build_contract (relevance : List (String × ℚ)) (confidence : ℚ)
    (scoring_method : String) (error_code error_message : Option String)
    (user_weights : List (String × ℚ)) (due_date : DueInput)
    (effort_estimate : Option ℚ) (today : Date) : Contract :=
  let importance := compute_importance relevance user_weights
  let urgency := compute_urgency due_date effort_estimate today
  let quadrant := compute_quadrant importance urgency
  let rationale := make_rationale relevance importance urgency scoring_method
  { relevance_scores := relevance,
    confidence := confidence,
    importance_score := importance,
    urgency_score := urgency,
    quadrant := quadrant,
    rationale := rationale,
    scoring_method := scoring_method,
    error_code := truthy_str error_code,
    error_message := truthy_str error_message }

/-- The nested ai_scoring_func closure of get_relevance_scores: the
AI_NOT_CONFIGURED fallback (0.25 relevance, confidence 0) when the AI service
is unavailable, otherwise the score_task call. -/
def ai_scoring_func (ai_available : Bool) (configuration_error : Option String)
    (api : ApiOutcome) (task_title task_description : String)
    (user_weights : List (String × ℚ)) : ScoreResult :=
  if ¬ ai_available then
    { relevance_scores := (user_weights.map Prod.fst).map (fun k => (k, (0.25:ℚ))),
      confidence := some 0,
      error_code := some "AI_NOT_CONFIGURED",
      error_message := some "AI service is not configured" }
  else
    score_task ai_available configuration_error api task_title task_description user_weights

/-- LAYER 1 of get_relevance_scores: the rule-engine try/except;
rule_engine_raises injects the caught exception path. -/
def rules_layer (rule_engine_raises : Bool) (title description : String)
    (weights : List (String × ℚ)) : Option ScoreResult :=
  if rule_engine_raises then none
  else
    match get_short_circuit_decision default_dominance_threshold default_ceiling_others
        title description weights with
    | (true, some ds) => some ds
    | _ => none

/-- AIOrchestrator.get_relevance_scores. ai_available mirrors the orchestrator
flag (equal to the scorer's is_configured); api is the backend call outcome;
the four Bools inject the exception paths the orchestrator and cache catch
(rule engine failure, a failure inside the layer-2/3 try block, and the
swallowed cache read/write failures). Returns the contract and the cache
state after the call. -/
def get_relevance_scores (ai_available : Bool) (configuration_error : Option String)
    (api : ApiOutcome) (st : CacheState)
    (task_title task_description : String) (user_weights : List (String × ℚ))
    (due_date : DueInput) (effort_estimate : Option ℚ) (today : Date)
    (rule_engine_raises cache_layer_raises cache_read_raises cache_write_raises : Bool) :
    Contract × CacheState :=
  let domains := user_weights.map Prod.fst
  let default_relevance := domains.map (fun k => (k, (0.25:ℚ)))
  match rules_layer rule_engine_raises task_title task_description user_weights with
  | some ds =>
    (build_contract ds.relevance_scores (ds.confidence.getD 1) "rule_based" none none
      user_weights due_date effort_estimate today, st)
  | none =>
    if cache_layer_raises then
      (build_contract default_relevance 0 "fallback" (some "PIPELINE_ERROR")
        (some "unexpected pipeline exception") user_weights due_date effort_estimate
        today, st)
    else
      let fn_result := ai_scoring_func ai_available configuration_error api
        task_title task_description user_weights
      let fs := get_or_set_score st task_title task_description user_weights fn_result
        cache_read_raises cache_write_raises
      let confidence := fs.1.confidence.getD 0
      let scoring_method :=
        if (fs.1.error_code.getD "") ≠ "" then "fallback"
        else if 0 < confidence then "ai_scored"
        else "fallback"
      (build_contract fs.1.relevance_scores confidence scoring_method
        fs.1.error_code fs.1.error_message user_weights due_date effort_estimate today,
       fs.2)

-- ---------------------------------------------------------------------------
-- Shape and scenario lemmas for the orchestrator pipeline
-- ---------------------------------------------------------------------------

/-- Well-formedness of a scoring-layer result relative to a weight profile:
its relevance keys are the profile domains (up to order), its values and its
defaulted confidence lie in [0,1]. -/
def result_shaped (weights : List (String × ℚ)) (r : ScoreResult) : Prop :=
  List.Perm (r.relevance_scores.map Prod.fst) (weights.map Prod.fst) ∧
  (∀ p ∈ r.relevance_scores, 0 ≤ p.2 ∧ p.2 ≤ 1) ∧
  0 ≤ r.confidence.getD 0 ∧ r.confidence.getD 0 ≤ 1

/-- Well-formedness of a cache entry relative to its key's weight pairs. -/
def entry_shaped (k : CacheKey) (r : ScoreResult) : Prop :=
  result_shaped k.weights r

theorem quadrant_mem (i u : ℚ) :
    compute_quadrant i u = "Q1" ∨ compute_quadrant i u = "Q2" ∨
    compute_quadrant i u = "Q3" ∨ compute_quadrant i u = "Q4" := by
  simp only [compute_quadrant]
  split_ifs <;> simp

theorem importance_unit (relevance weights : List (String × ℚ)) :
    0 ≤ compute_importance relevance weights ∧ compute_importance relevance weights ≤ 1 := by
  unfold compute_importance
  exact pyRound4_mem_unit (clamp01_nonneg _) (clamp01_le_one _)

theorem urgency_unit (due_date : DueInput) (effort : Option ℚ) (today : Date) :
    0 ≤ compute_urgency due_date effort today ∧ compute_urgency due_date effort today ≤ 1 := by
  unfold compute_urgency
  exact pyRound4_mem_unit (clamp01_nonneg _) (clamp01_le_one _)

theorem map_fst_pair_map {β : Type} (w : List (String × ℚ)) (f : String × ℚ → β) :
    ((w.map (fun p => (p.1, f p))).map Prod.fst) = w.map Prod.fst := by
  simp [List.map_map]

theorem map_fst_dom_map {β : Type} (w : List (String × ℚ)) (f : String → β) :
    (((w.map Prod.fst).map (fun k => (k, f k))).map Prod.fst) = w.map Prod.fst := by
  simp [List.map_map]

theorem gen_det_scores_shaped (dom : String) (w : List (String × ℚ)) :
    result_shaped w (generate_deterministic_scores dom w) := by
  unfold generate_deterministic_scores result_shaped
  refine ⟨?_, ?_, by norm_num, by norm_num⟩
  · rw [map_fst_pair_map w (fun p => if p.1 = dom then (1:ℚ) else 0)]
  · intro p hp
    obtain ⟨q, hq, rfl⟩ := List.mem_map.mp hp
    dsimp only
    split_ifs <;> norm_num

theorem get_error_response_shaped (w : List (String × ℚ)) (code msg : String) :
    result_shaped w (get_error_response (w.map Prod.fst) code msg) := by
  unfold get_error_response result_shaped
  refine ⟨?_, ?_, by norm_num, by norm_num⟩
  · rw [show ((w.map Prod.fst).map (fun d => (d, (0:ℚ)))) =
      (w.map Prod.fst).map (fun k => (k, (0:ℚ))) from rfl,
      map_fst_dom_map w (fun _ => (0:ℚ))]
  · intro p hp
    obtain ⟨q, hq, rfl⟩ := List.mem_map.mp hp
    norm_num

theorem score_task_unconfigured (configuration_error : Option String) (api : ApiOutcome)
    (t d : String) (w : List (String × ℚ)) :
    score_task false configuration_error api t d w =
      get_error_response (w.map Prod.fst) "SCORER_NOT_CONFIGURED"
        (py_or configuration_error "Scorer not available") := by
  simp [score_task]

theorem score_task_shaped (is_configured : Bool) (configuration_error : Option String)
    (api : ApiOutcome) (t d : String) (w : List (String × ℚ)) :
    result_shaped w (score_task is_configured configuration_error api t d w) := by
  cases is_configured with
  | false =>
    rw [score_task_unconfigured]
    exact get_error_response_shaped w _ _
  | true =>
    have hred : score_task true configuration_error api t d w =
        (match api with
          | ApiOutcome.success rawScores rawConf =>
            match validate_and_parse_response rawScores rawConf (w.map Prod.fst) with
            | Except.ok r => r
            | Except.error msg =>
              get_error_response (w.map Prod.fst) "VALIDATION_ERROR" msg
          | ApiOutcome.emptyContent =>
            get_error_response (w.map Prod.fst) "VALIDATION_ERROR" "Empty response from AI"
          | ApiOutcome.jsonError =>
            get_error_response (w.map Prod.fst) "JSON_PARSE_ERROR"
              "AI returned invalid JSON response"
          | ApiOutcome.authError =>
            get_error_response (w.map Prod.fst) "AUTH_ERROR"
              "Invalid API key or authentication failed"
          | ApiOutcome.rateLimit =>
            get_error_response (w.map Prod.fst) "RATE_LIMIT"
              "API rate limit exceeded, please retry later"
          | ApiOutcome.timeoutErr =>
            get_error_response (w.map Prod.fst) "TIMEOUT" "API request timed out"
          | ApiOutcome.connError =>
            get_error_response (w.map Prod.fst) "CONNECTION_ERROR"
              "Could not connect to OpenAI API"
          | ApiOutcome.badRequest =>
            get_error_response (w.map Prod.fst) "BAD_REQUEST"
              "Invalid request to OpenAI API"
          | ApiOutcome.statusError code =>
            get_error_response (w.map Prod.fst) ("API_ERROR_" ++ toString code)
              ("OpenAI API error (status " ++ toString code ++ ")")
          | ApiOutcome.unexpected name =>
            get_error_response (w.map Prod.fst) "UNEXPECTED_ERROR"
              ("Unexpected error: " ++ name)) := by
      simp [score_task]
    rw [hred]
    cases api with
    | success rawScores rawConf =>
      dsimp only
      cases rawScores with
      | none => exact get_error_response_shaped w _ _
      | some scores =>
        cases rawConf with
        | none => exact get_error_response_shaped w _ _
        | some conf =>
          unfold validate_and_parse_response
          dsimp only
          refine ⟨?_, ?_, ?_, ?_⟩
          · rw [map_fst_dom_map]
          · intro p hp
            obtain ⟨q, hq, rfl⟩ := List.mem_map.mp hp
            dsimp only
            rcases alookup scores q with - | v
            · norm_num
            · rcases v with - | v
              · norm_num
              · exact ⟨clamp01_nonneg _, clamp01_le_one _⟩
          · rcases conf with - | c
            · norm_num
            · exact clamp01_nonneg _
          · rcases conf with - | c
            · norm_num
            · exact clamp01_le_one _
    | emptyContent => exact get_error_response_shaped w _ _
    | jsonError => exact get_error_response_shaped w _ _
    | authError => exact get_error_response_shaped w _ _
    | rateLimit => exact get_error_response_shaped w _ _
    | timeoutErr => exact get_error_response_shaped w _ _
    | connError => exact get_error_response_shaped w _ _
    | badRequest => exact get_error_response_shaped w _ _
    | statusError code => exact get_error_response_shaped w _ _
    | unexpected name => exact get_error_response_shaped w _ _

theorem ai_scoring_func_unavailable (configuration_error : Option String)
    (api : ApiOutcome) (t d : String) (w : List (String × ℚ)) :
    ai_scoring_func false configuration_error api t d w =
      { relevance_scores := (w.map Prod.fst).map (fun k => (k, (0.25:ℚ))),
        confidence := some 0,
        error_code := some "AI_NOT_CONFIGURED",
        error_message := some "AI service is not configured" } := by
  simp [ai_scoring_func]

theorem ai_scoring_func_available (configuration_error : Option String)
    (api : ApiOutcome) (t d : String) (w : List (String × ℚ)) :
    ai_scoring_func true configuration_error api t d w =
      score_task true configuration_error api t d w := by
  simp [ai_scoring_func]

theorem ai_scoring_func_shaped (ai_available : Bool) (configuration_error : Option String)
    (api : ApiOutcome) (t d : String) (w : List (String × ℚ)) :
    result_shaped w (ai_scoring_func ai_available configuration_error api t d w) := by
  cases ai_available with
  | false =>
    rw [ai_scoring_func_unavailable]
    refine ⟨?_, ?_, by norm_num, by norm_num⟩
    · dsimp only
      rw [map_fst_dom_map w (fun _ => (0.25:ℚ))]
    · intro p hp
      obtain ⟨q, hq, rfl⟩ := List.mem_map.mp hp
      norm_num
  | true =>
    rw [ai_scoring_func_available]
    exact score_task_shaped _ _ _ _ _ _

theorem short_circuit_shape (thr ceil : ℚ) (t de : String) (w : List (String × ℚ)) :
    get_short_circuit_decision thr ceil t de w = (false, none) ∨
    ∃ dom, get_short_circuit_decision thr ceil t de w =
      (true, some (generate_deterministic_scores dom w)) := by
  unfold get_short_circuit_decision
  cases hc : check_weight_dominance thr ceil w with
  | mk b o =>
    cases b with
    | false => cases o <;> exact Or.inl rfl
    | true =>
      cases o with
      | none => exact Or.inl rfl
      | some dom =>
        dsimp only
        split_ifs
        · exact Or.inl rfl
        · exact Or.inr ⟨dom, rfl⟩
        · exact Or.inl rfl

theorem rules_layer_some_shape {rf : Bool} {t d : String} {w : List (String × ℚ)}
    {ds : ScoreResult} (h : rules_layer rf t d w = some ds) :
    ∃ dom, ds = generate_deterministic_scores dom w := by
  unfold rules_layer at h
  cases rf with
  | true => simp at h
  | false =>
    rw [if_neg (by simp : ¬ ((false : Bool) = true))] at h
    rcases short_circuit_shape default_dominance_threshold default_ceiling_others t d w
        with hsc | ⟨dom, hsc⟩
    · rw [hsc] at h
      exact absurd h (by simp)
    · rw [hsc] at h
      exact ⟨dom, by simpa using h.symm⟩

theorem get_or_set_hit {st : CacheState} {t d : String} {w : List (String × ℚ)}
    {r : ScoreResult} (fn : ScoreResult) (wf : Bool)
    (hlook : alookup st (canonical_payload t d w "v1") = some r) :
    get_or_set_score st t d w fn false wf = (r, st) := by
  simp [get_or_set_score, hlook]

theorem get_or_set_miss {st : CacheState} {t d : String} {w : List (String × ℚ)}
    (fn : ScoreResult) (rr wf : Bool)
    (hlook : alookup st (canonical_payload t d w "v1") = none) :
    get_or_set_score st t d w fn rr wf =
      (fn, if ¬ wf = true ∧ 0 < fn.confidence.getD 0
        then (canonical_payload t d w "v1", fn) :: st else st) := by
  cases rr with
  | false =>
    simp only [get_or_set_score, hlook]
    split_ifs <;> rfl
  | true =>
    simp only [get_or_set_score, if_pos rfl]
    split_ifs <;> rfl

theorem get_or_set_fst (st : CacheState) (t d : String) (w : List (String × ℚ))
    (fn : ScoreResult) (rr wf : Bool) :
    (get_or_set_score st t d w fn rr wf).1 = fn ∨
    ∃ r, alookup st (canonical_payload t d w "v1") = some r ∧
      (get_or_set_score st t d w fn rr wf).1 = r := by
  simp only [get_or_set_score]
  cases hl : (if rr then none else alookup st (canonical_payload t d w "v1")) with
  | some r =>
    refine Or.inr ⟨r, ?_, rfl⟩
    cases rr with
    | true => simp at hl
    | false => simpa using hl
  | none =>
    dsimp only
    split_ifs <;> exact Or.inl rfl

theorem grs_rule_fired {rf : Bool} {t d : String} {w : List (String × ℚ)}
    {ds : ScoreResult} (hr : rules_layer rf t d w = some ds)
    (av : Bool) (ce : Option String) (api : ApiOutcome) (st : CacheState)
    (due : DueInput) (eff : Option ℚ) (today : Date) (cl rr wr : Bool) :
    get_relevance_scores av ce api st t d w due eff today rf cl rr wr =
      (build_contract ds.relevance_scores (ds.confidence.getD 1) "rule_based" none none
        w due eff today, st) := by
  simp only [get_relevance_scores, hr]

theorem grs_pipeline_error {rf : Bool} {t d : String} {w : List (String × ℚ)}
    (hr : rules_layer rf t d w = none)
    (av : Bool) (ce : Option String) (api : ApiOutcome) (st : CacheState)
    (due : DueInput) (eff : Option ℚ) (today : Date) (rr wr : Bool) :
    get_relevance_scores av ce api st t d w due eff today rf true rr wr =
      (build_contract ((w.map Prod.fst).map (fun k => (k, (0.25:ℚ)))) 0 "fallback"
        (some "PIPELINE_ERROR") (some "unexpected pipeline exception")
        w due eff today, st) := by
  simp only [get_relevance_scores, hr, if_true]

theorem grs_cache_path {rf : Bool} {t d : String} {w : List (String × ℚ)}
    (hr : rules_layer rf t d w = none)
    (av : Bool) (ce : Option String) (api : ApiOutcome) (st : CacheState)
    (due : DueInput) (eff : Option ℚ) (today : Date) (rr wr : Bool) :
    get_relevance_scores av ce api st t d w due eff today rf false rr wr =
      (build_contract
        (get_or_set_score st t d w (ai_scoring_func av ce api t d w) rr wr).1.relevance_scores
        ((get_or_set_score st t d w (ai_scoring_func av ce api t d w) rr wr).1.confidence.getD 0)
        (if ((get_or_set_score st t d w
              (ai_scoring_func av ce api t d w) rr wr).1.error_code.getD "") ≠ ""
          then "fallback"
          else if 0 < ((get_or_set_score st t d w
              (ai_scoring_func av ce api t d w) rr wr).1.confidence.getD 0)
            then "ai_scored" else "fallback")
        (get_or_set_score st t d w (ai_scoring_func av ce api t d w) rr wr).1.error_code
        (get_or_set_score st t d w (ai_scoring_func av ce api t d w) rr wr).1.error_message
        w due eff today,
       (get_or_set_score st t d w (ai_scoring_func av ce api t d w) rr wr).2) := by
  simp only [get_relevance_scores, hr, if_false, Bool.false_eq_true]

theorem build_contract_wf (rel : List (String × ℚ)) (conf : ℚ) (sm : String)
    (ec em : Option String) (w : List (String × ℚ)) (due : DueInput)
    (eff : Option ℚ) (today : Date)
    (hkeys : List.Perm (rel.map Prod.fst) (w.map Prod.fst))
    (hvals : ∀ p ∈ rel, 0 ≤ p.2 ∧ p.2 ≤ 1)
    (hconf : 0 ≤ conf ∧ conf ≤ 1) :
    List.Perm ((build_contract rel conf sm ec em w due eff today).relevance_scores.map
      Prod.fst) (w.map Prod.fst) ∧
    (∀ p ∈ (build_contract rel conf sm ec em w due eff today).relevance_scores,
      0 ≤ p.2 ∧ p.2 ≤ 1) ∧
    (0 ≤ (build_contract rel conf sm ec em w due eff today).confidence ∧
      (build_contract rel conf sm ec em w due eff today).confidence ≤ 1) ∧
    (0 ≤ (build_contract rel conf sm ec em w due eff today).importance_score ∧
      (build_contract rel conf sm ec em w due eff today).importance_score ≤ 1) ∧
    (0 ≤ (build_contract rel conf sm ec em w due eff today).urgency_score ∧
      (build_contract rel conf sm ec em w due eff today).urgency_score ≤ 1) ∧
    ((build_contract rel conf sm ec em w due eff today).quadrant = "Q1" ∨
      (build_contract rel conf sm ec em w due eff today).quadrant = "Q2" ∨
      (build_contract rel conf sm ec em w due eff today).quadrant = "Q3" ∨
      (build_contract rel conf sm ec em w due eff today).quadrant = "Q4") := by
  simp only [build_contract]
  exact ⟨hkeys, hvals, hconf, importance_unit _ _, urgency_unit _ _ _, quadrant_mem _ _⟩

theorem grs_method_closed (av : Bool) (ce : Option String) (api : ApiOutcome)
    (st : CacheState) (t d : String) (w : List (String × ℚ)) (due : DueInput)
    (eff : Option ℚ) (today : Date) (rf cl rr wr : Bool) :
    ∀ c st2, get_relevance_scores av ce api st t d w due eff today rf cl rr wr
        = (c, st2) →
      c.scoring_method = "rule_based" ∨ c.scoring_method = "ai_scored" ∨
        c.scoring_method = "fallback" := by
  intro c st2 heq
  cases hrl : rules_layer rf t d w with
  | some ds =>
    rw [grs_rule_fired hrl av ce api st due eff today cl rr wr] at heq
    injection heq with hc hst
    rw [← hc]
    simp [build_contract]
  | none =>
    cases cl with
    | true =>
      rw [grs_pipeline_error hrl av ce api st due eff today rr wr] at heq
      injection heq with hc hst
      rw [← hc]
      simp [build_contract]
    | false =>
      rw [grs_cache_path hrl av ce api st due eff today rr wr] at heq
      injection heq with hc hst
      rw [← hc]
      simp only [build_contract]
      split_ifs <;> simp

/-- C1 (amended): the orchestrator is total — it returns a contract on every
input and injected failure — and, whenever every stored cache entry is
well-formed, the contract is complete and in bounds: relevance keys are
exactly the profile domains (up to order) with values in [0,1]; confidence,
importance and urgency lie in [0,1]; the quadrant is one of Q1–Q4; the
scoring_method is one of rule_based/ai_scored/fallback; and an unrecovered
failure of the cache/backend layer degrades to a fallback contract carrying
error_code PIPELINE_ERROR. (The original claim's stronger reading — that any
internal failure of the rule engine or cache yields a fallback contract with
a populated error_code — is refuted by the counterexample theorem: a
swallowed cache-read failure followed by a successful backend call yields an
ai_scored contract with no error_code.) -/
theorem c1_contract_complete (av : Bool) (ce : Option String) (api : ApiOutcome)
    (st : CacheState) (t d : String) (w : List (String × ℚ)) (due : DueInput)
    (eff : Option ℚ) (today : Date) (rf cl rr wr : Bool)
    (hWF : ∀ p ∈ st, entry_shaped p.1 p.2) :
    ∀ c st2, get_relevance_scores av ce api st t d w due eff today rf cl rr wr
        = (c, st2) →
      (List.Perm (c.relevance_scores.map Prod.fst) (w.map Prod.fst) ∧
        (∀ p ∈ c.relevance_scores, 0 ≤ p.2 ∧ p.2 ≤ 1) ∧
        (0 ≤ c.confidence ∧ c.confidence ≤ 1) ∧
        (0 ≤ c.importance_score ∧ c.importance_score ≤ 1) ∧
        (0 ≤ c.urgency_score ∧ c.urgency_score ≤ 1) ∧
        (c.quadrant = "Q1" ∨ c.quadrant = "Q2" ∨ c.quadrant = "Q3" ∨
          c.quadrant = "Q4")) ∧
      (c.scoring_method = "rule_based" ∨ c.scoring_method = "ai_scored" ∨
        c.scoring_method = "fallback") ∧
      (rules_layer rf t d w = none → cl = true →
        c.error_code = some "PIPELINE_ERROR" ∧ c.scoring_method = "fallback") := by
  intro c st2 heq
  refine ⟨?_, grs_method_closed av ce api st t d w due eff today rf cl rr wr c st2 heq, ?_⟩
  · cases hrl : rules_layer rf t d w with
    | some ds =>
      rw [grs_rule_fired hrl av ce api st due eff today cl rr wr] at heq
      injection heq with hc hst
      obtain ⟨dom, rfl⟩ := rules_layer_some_shape hrl
      rw [← hc]
      have hshape := gen_det_scores_shaped dom w
      refine build_contract_wf _ _ _ _ _ _ _ _ _ hshape.1 hshape.2.1 ?_
      norm_num [generate_deterministic_scores]
    | none =>
      cases cl with
      | true =>
        rw [grs_pipeline_error hrl av ce api st due eff today rr wr] at heq
        injection heq with hc hst
        rw [← hc]
        refine build_contract_wf _ _ _ _ _ _ _ _ _ ?_ ?_ (by norm_num)
        · rw [map_fst_dom_map w (fun _ => (0.25:ℚ))]
        · intro p hp
          obtain ⟨q, hq, rfl⟩ := List.mem_map.mp hp
          norm_num
      | false =>
        rw [grs_cache_path hrl av ce api st due eff today rr wr] at heq
        injection heq with hc hst
        rw [← hc]
        have hshape : result_shaped w
            (get_or_set_score st t d w (ai_scoring_func av ce api t d w) rr wr).1 := by
          rcases get_or_set_fst st t d w (ai_scoring_func av ce api t d w) rr wr
              with hf | ⟨r, hlk, hf⟩
          · rw [hf]
            exact ai_scoring_func_shaped av ce api t d w
          · rw [hf]
            have hES := hWF _ (alookup_mem hlk)
            unfold entry_shaped at hES
            obtain ⟨hk, hv, hc1, hc2⟩ := hES
            refine ⟨hk.trans ?_, hv, hc1, hc2⟩
            simp only [canonical_payload]
            exact (List.perm_insertionSort pair_le w).map Prod.fst
        exact build_contract_wf _ _ _ _ _ _ _ _ _ hshape.1 hshape.2.1
          ⟨hshape.2.2.1, hshape.2.2.2⟩
  · intro hrl hcl
    subst hcl
    rw [grs_pipeline_error hrl av ce api st due eff today rr wr] at heq
    injection heq with hc hst
    rw [← hc]
    constructor
    · simp [build_contract, truthy_str]
    · simp [build_contract]

/-- Witness for C1 at a concrete unconfigured run over an empty cache. -/
theorem c1_contract_complete_witness :
    (∀ p ∈ ([] : CacheState), entry_shaped p.1 p.2) ∧
    ((get_relevance_scores false none ApiOutcome.emptyContent [] "x" ""
        [("health", (1:ℚ))] none none (Date.mk 2024 1 1)
        false false false false).1.scoring_method = "rule_based" ∨
      (get_relevance_scores false none ApiOutcome.emptyContent [] "x" ""
        [("health", (1:ℚ))] none none (Date.mk 2024 1 1)
        false false false false).1.scoring_method = "ai_scored" ∨
      (get_relevance_scores false none ApiOutcome.emptyContent [] "x" ""
        [("health", (1:ℚ))] none none (Date.mk 2024 1 1)
        false false false false).1.scoring_method = "fallback") :=
  ⟨by simp, (c1_contract_complete false none ApiOutcome.emptyContent [] "x" ""
      [("health", (1:ℚ))] none none (Date.mk 2024 1 1) false false false false
      (by simp) _ _ rfl).2.1⟩

/-- Counterexample for the claim's universal failure clause: with a swallowed
cache-read failure injected (the except branch of the cache retrieval) and a
healthy backend call, the contract is ai_scored with NO error_code, not a
fallback contract with a populated error_code. -/
theorem c1_counterexample :
    (get_relevance_scores true none
        (ApiOutcome.success (some [("health", some (0.9:ℚ))]) (some (some (0.9:ℚ))))
        [] "x" "" [("health", (1:ℚ))] none none (Date.mk 2024 1 1)
        false false true false).1.scoring_method = "ai_scored" ∧
    (get_relevance_scores true none
        (ApiOutcome.success (some [("health", some (0.9:ℚ))]) (some (some (0.9:ℚ))))
        [] "x" "" [("health", (1:ℚ))] none none (Date.mk 2024 1 1)
        false false true false).1.error_code = none := by
  have hdom : check_weight_dominance default_dominance_threshold default_ceiling_others
      [("health", (1:ℚ))] = (true, some "health") := by
    norm_num [check_weight_dominance, sort_weights_desc, List.insertionSort,
      List.orderedInsert, weight_desc, default_dominance_threshold]
  have hkw : has_keyword_match (pyLower "x") (pyLower "") "health" = false := by decide
  have hsc : get_short_circuit_decision default_dominance_threshold default_ceiling_others
      "x" "" [("health", (1:ℚ))] = (false, none) := by
    simp [get_short_circuit_decision, hdom, hkw]
  have hrl : rules_layer false "x" "" [("health", (1:ℚ))] = none := by
    simp [rules_layer, hsc]
  have hfn : ai_scoring_func true none
      (ApiOutcome.success (some [("health", some (0.9:ℚ))]) (some (some (0.9:ℚ))))
      "x" "" [("health", (1:ℚ))] =
      ScoreResult.mk [("health", clamp01 (0.9:ℚ))] (some (clamp01 (0.9:ℚ))) none none := by
    rw [ai_scoring_func_available]
    simp [score_task, validate_and_parse_response, alookup]
  have hmiss : alookup ([] : CacheState)
      (canonical_payload "x" "" [("health", (1:ℚ))] "v1") = none := rfl
  have hfs := get_or_set_miss
    (ScoreResult.mk [("health", clamp01 (0.9:ℚ))] (some (clamp01 (0.9:ℚ))) none none)
    true false hmiss
  rw [grs_cache_path hrl true none
    (ApiOutcome.success (some [("health", some (0.9:ℚ))]) (some (some (0.9:ℚ))))
    [] none none (Date.mk 2024 1 1) true false, hfn, hfs]
  have hpos : (0:ℚ) < clamp01 (0.9:ℚ) := by norm_num [clamp01]
  constructor
  · simp [build_contract, hpos]
  · simp [build_contract, truthy_str]

theorem truthy_str_none {o : Option String} (h : o.getD "" = "") :
    truthy_str o = none := by
  cases o with
  | none => rfl
  | some s =>
    simp only [Option.getD] at h
    simp [truthy_str, h]

/-- C9: when the backend is unavailable, the rules do not short-circuit and the
cache has no entry for the input, the orchestrator still returns a complete
fallback contract: scoring_method fallback, confidence 0.0, relevance 0.25 for
every profile domain, error_code AI_NOT_CONFIGURED carried through, cache
unchanged; and in general a layer result carrying an error_code yields
scoring_method fallback, while ai_scored occurs only with positive confidence
and no error code. -/
theorem c9_fallback_safety (av : Bool) (ce : Option String) (api : ApiOutcome)
    (st : CacheState) (t d : String) (w : List (String × ℚ)) (due : DueInput)
    (eff : Option ℚ) (today : Date) (rf cl rr wr : Bool) :
    (rules_layer rf t d w = none → cl = false → av = false →
      alookup st (canonical_payload t d w "v1") = none →
      ∀ c st2, get_relevance_scores av ce api st t d w due eff today rf cl rr wr
          = (c, st2) →
        c.scoring_method = "fallback" ∧ c.confidence = 0 ∧
        c.relevance_scores = (w.map Prod.fst).map (fun k => (k, (0.25:ℚ))) ∧
        c.error_code = some "AI_NOT_CONFIGURED" ∧ st2 = st) ∧
    (∀ c st2, get_relevance_scores av ce api st t d w due eff today rf cl rr wr
        = (c, st2) →
      (c.error_code.isSome → c.scoring_method = "fallback") ∧
      (c.scoring_method = "ai_scored" → 0 < c.confidence ∧ c.error_code = none)) := by
  constructor
  · intro hrl hcl hav hlook c st2 heq
    subst hcl
    subst hav
    rw [grs_cache_path hrl false ce api st due eff today rr wr,
      ai_scoring_func_unavailable] at heq
    have hneg : ¬ (¬ wr = true ∧ 0 < ((some (0:ℚ)).getD 0)) := by simp
    have hfs := get_or_set_miss
      { relevance_scores := (w.map Prod.fst).map (fun k => (k, (0.25:ℚ))),
        confidence := some 0,
        error_code := some "AI_NOT_CONFIGURED",
        error_message := some "AI service is not configured" } rr wr hlook
    rw [if_neg hneg] at hfs
    rw [hfs] at heq
    injection heq with hc hst
    rw [← hc]
    refine ⟨?_, rfl, rfl, ?_, hst.symm⟩
    · simp [build_contract]
    · simp [build_contract, truthy_str]
  · intro c st2 heq
    cases hrl : rules_layer rf t d w with
    | some ds =>
      rw [grs_rule_fired hrl av ce api st due eff today cl rr wr] at heq
      injection heq with hc hst
      rw [← hc]
      constructor
      · intro hs
        simp [build_contract, truthy_str] at hs
      · intro hs
        simp [build_contract] at hs
    | none =>
      cases cl with
      | true =>
        rw [grs_pipeline_error hrl av ce api st due eff today rr wr] at heq
        injection heq with hc hst
        rw [← hc]
        constructor
        · intro _
          simp [build_contract]
        · intro hs
          simp [build_contract] at hs
      | false =>
        rw [grs_cache_path hrl av ce api st due eff today rr wr] at heq
        injection heq with hc hst
        rw [← hc]
        by_cases hE : ((get_or_set_score st t d w (ai_scoring_func av ce api t d w)
            rr wr).1.error_code.getD "") ≠ ""
        · constructor
          · intro _
            simp [build_contract, if_pos hE]
          · intro hs
            simp [build_contract, if_pos hE] at hs
        · push_neg at hE
          have hnone := truthy_str_none hE
          by_cases hconf : 0 < (get_or_set_score st t d w
              (ai_scoring_func av ce api t d w) rr wr).1.confidence.getD 0
          · constructor
            · intro hs
              simp [build_contract, hnone] at hs
            · intro _
              refine ⟨by simpa [build_contract] using hconf, ?_⟩
              simp [build_contract, hnone]
          · constructor
            · intro hs
              simp [build_contract, hnone] at hs
            · intro hs
              simp [build_contract, if_neg (not_ne_iff.mpr hE), if_neg hconf] at hs

/-- Witness for C9: the unconfigured-backend run on an empty cache yields the
complete fallback contract and leaves the cache unchanged. -/
theorem c9_fallback_safety_witness :
    rules_layer false "x" "" [("health", (1:ℚ))] = none ∧
    ((get_relevance_scores false none ApiOutcome.emptyContent [] "x" ""
        [("health", (1:ℚ))] none none (Date.mk 2024 1 1)
        false false false false).1.scoring_method = "fallback" ∧
      (get_relevance_scores false none ApiOutcome.emptyContent [] "x" ""
        [("health", (1:ℚ))] none none (Date.mk 2024 1 1)
        false false false false).1.confidence = 0 ∧
      (get_relevance_scores false none ApiOutcome.emptyContent [] "x" ""
        [("health", (1:ℚ))] none none (Date.mk 2024 1 1)
        false false false false).1.relevance_scores =
        (([("health", (1:ℚ))].map Prod.fst).map (fun k => (k, (0.25:ℚ)))) ∧
      (get_relevance_scores false none ApiOutcome.emptyContent [] "x" ""
        [("health", (1:ℚ))] none none (Date.mk 2024 1 1)
        false false false false).1.error_code = some "AI_NOT_CONFIGURED" ∧
      (get_relevance_scores false none ApiOutcome.emptyContent [] "x" ""
        [("health", (1:ℚ))] none none (Date.mk 2024 1 1)
        false false false false).2 = []) := by
  have hdom : check_weight_dominance default_dominance_threshold default_ceiling_others
      [("health", (1:ℚ))] = (true, some "health") := by
    norm_num [check_weight_dominance, sort_weights_desc, List.insertionSort,
      List.orderedInsert, weight_desc, default_dominance_threshold]
  have hkw : has_keyword_match (pyLower "x") (pyLower "") "health" = false := by decide
  have hsc : get_short_circuit_decision default_dominance_threshold default_ceiling_others
      "x" "" [("health", (1:ℚ))] = (false, none) := by
    simp [get_short_circuit_decision, hdom, hkw]
  have hrl : rules_layer false "x" "" [("health", (1:ℚ))] = none := by
    simp [rules_layer, hsc]
  exact ⟨hrl, (c9_fallback_safety false none ApiOutcome.emptyContent [] "x" ""
    [("health", (1:ℚ))] none none (Date.mk 2024 1 1) false false false false).1
    hrl rfl rfl rfl _ _ rfl⟩

/-- C10: the scoring_method of every contract is one of rule_based, ai_scored
or fallback — the declared "cached" value is never produced; a cache hit whose
stored result has positive confidence and no error code is reported as
ai_scored, indistinguishable from a fresh backend call. -/
theorem c10_method_never_cached (av : Bool) (ce : Option String) (api : ApiOutcome)
    (st : CacheState) (t d : String) (w : List (String × ℚ)) (due : DueInput)
    (eff : Option ℚ) (today : Date) (rf cl rr wr : Bool) :
    (∀ c st2, get_relevance_scores av ce api st t d w due eff today rf cl rr wr
        = (c, st2) →
      (c.scoring_method = "rule_based" ∨ c.scoring_method = "ai_scored" ∨
        c.scoring_method = "fallback") ∧ c.scoring_method ≠ "cached") ∧
    (rules_layer rf t d w = none → cl = false → rr = false →
      ∀ r, alookup st (canonical_payload t d w "v1") = some r →
        r.error_code = none → 0 < r.confidence.getD 0 →
        ∀ c st2, get_relevance_scores av ce api st t d w due eff today rf cl rr wr
            = (c, st2) →
          c.scoring_method = "ai_scored") := by
  constructor
  · intro c st2 heq
    have hmem := grs_method_closed av ce api st t d w due eff today rf cl rr wr c st2 heq
    refine ⟨hmem, ?_⟩
    rcases hmem with h | h | h <;> rw [h] <;> decide
  · intro hrl hcl hrr r hlook her hconf c st2 heq
    subst hcl
    subst hrr
    rw [grs_cache_path hrl av ce api st due eff today false wr,
      get_or_set_hit (ai_scoring_func av ce api t d w) wr hlook] at heq
    injection heq with hc hst
    rw [← hc]
    simp [build_contract, her, hconf]

/-- Witness for C10: a cache hit with positive confidence and no error code is
reported as ai_scored. -/
theorem c10_method_never_cached_witness :
    alookup [(canonical_payload "x" "" [("health", (1:ℚ))] "v1",
        ScoreResult.mk [("health", (1:ℚ))] (some 1) none none)]
      (canonical_payload "x" "" [("health", (1:ℚ))] "v1") =
        some (ScoreResult.mk [("health", (1:ℚ))] (some 1) none none) ∧
    (get_relevance_scores true none ApiOutcome.emptyContent
      [(canonical_payload "x" "" [("health", (1:ℚ))] "v1",
        ScoreResult.mk [("health", (1:ℚ))] (some 1) none none)]
      "x" "" [("health", (1:ℚ))] none none (Date.mk 2024 1 1)
      false false false false).1.scoring_method = "ai_scored" := by
  have hdom : check_weight_dominance default_dominance_threshold default_ceiling_others
      [("health", (1:ℚ))] = (true, some "health") := by
    norm_num [check_weight_dominance, sort_weights_desc, List.insertionSort,
      List.orderedInsert, weight_desc, default_dominance_threshold]
  have hkw : has_keyword_match (pyLower "x") (pyLower "") "health" = false := by decide
  have hsc : get_short_circuit_decision default_dominance_threshold default_ceiling_others
      "x" "" [("health", (1:ℚ))] = (false, none) := by
    simp [get_short_circuit_decision, hdom, hkw]
  have hrl : rules_layer false "x" "" [("health", (1:ℚ))] = none := by
    simp [rules_layer, hsc]
  have hlook : alookup [(canonical_payload "x" "" [("health", (1:ℚ))] "v1",
      ScoreResult.mk [("health", (1:ℚ))] (some 1) none none)]
      (canonical_payload "x" "" [("health", (1:ℚ))] "v1") =
        some (ScoreResult.mk [("health", (1:ℚ))] (some 1) none none) := by
    simp [alookup]
  exact ⟨hlook, (c10_method_never_cached true none ApiOutcome.emptyContent
    [(canonical_payload "x" "" [("health", (1:ℚ))] "v1",
      ScoreResult.mk [("health", (1:ℚ))] (some 1) none none)]
    "x" "" [("health", (1:ℚ))] none none (Date.mk 2024 1 1)
    false false false false).2 hrl rfl rfl _ hlook rfl (by norm_num) _ _ rfl⟩

-- ---------------------------------------------------------------------------
-- celery_tasks.py: the scoring worker
-- ---------------------------------------------------------------------------

/-- The fields of tasks.models.Task that the worker reads and writes (named
TaskRow here; Task is taken by the Lean core); last_analyzed_at is a
timestamp in seconds. -/
structure TaskRow where
  user_id : ℤ
  title : String
  description : Option String
  due_date : Option Date
  effort_estimate : Option ℤ
  importance_score : ℚ
  urgency_score : ℚ
  priority_score : ℚ
  quadrant : Option String
  rationale : String
  is_prioritized : Bool
  last_analyzed_at : Option ℚ
deriving DecidableEq, Repr

/-- _should_skip_scoring of celery_tasks.py: skip when already prioritized and
analyzed less than 3600 seconds before now. -/
def should_skip_scoring (task : TaskRow) (now : ℚ) : Bool :=
  if ¬ task.is_prioritized then false
  else
    match task.last_analyzed_at with
    | some t => if now - t < 3600 then true else false
    | none => false

/-- The worker's possible returns: None (missing row / ownership mismatch),
the skipped dict, or the decision contract. -/
inductive RunResult where
  | noneResult
  | skipped (reason : String) (task_id : ℤ)
  | scored (c : Contract)
deriving DecidableEq, Repr

/-- run_ai_relevance_scoring of celery_tasks.py on its success paths: the Task
Store is the single row addressed by task_id (none when missing); orc is the
contract returned by the (total) Orchestrator call; the final Bool reports
whether the Orchestrator was invoked. The retry/exception branches re-raise
into the queue and leave the row-level logic modelled here untouched. -/
def run_ai_relevance_scoring (store : Option TaskRow) (task_id user_id : ℤ)
    (force_rescore : Bool) (now : ℚ) (orc : Contract) :
    RunResult × Option TaskRow × Bool :=
  match store with
  | none => (RunResult.noneResult, none, false)
  | some task =>
    if task.user_id ≠ user_id then (RunResult.noneResult, some task, false)
    else if ¬ force_rescore ∧ should_skip_scoring task now then
      (RunResult.skipped "already_processed" task_id, some task, false)
    else
      (RunResult.scored orc,
        some { task with
          importance_score := orc.importance_score,
          urgency_score := orc.urgency_score,
          quadrant := some orc.quadrant,
          rationale := orc.rationale,
          priority_score := orc.importance_score,
          is_prioritized := true,
          last_analyzed_at := some now },
        true)

/-- C4: a prioritized task analyzed within the one-hour freshness window is
skipped without invoking the Orchestrator and returns the distinct skipped
result; consequently two successive runs within the window (force_rescore
false, first run successful) invoke the Orchestrator exactly once — the first
run invokes it, the second returns skipped without invoking it — and leave
the store unchanged on the skip. -/
theorem c4_worker_idempotency (store : Option TaskRow) (task_id user_id : ℤ)
    (orc : Contract) :
    (∀ task now, store = some task → task.user_id = user_id →
      task.is_prioritized = true →
      (∀ tla, task.last_analyzed_at = some tla → now - tla < 3600 →
        run_ai_relevance_scoring store task_id user_id false now orc =
          (RunResult.skipped "already_processed" task_id, store, false))) ∧
    (∀ t1 t2 orc2 r1 s1 i1,
      run_ai_relevance_scoring store task_id user_id false t1 orc = (r1, s1, i1) →
      (∃ c, r1 = RunResult.scored c) →
      t2 - t1 < 3600 →
      i1 = true ∧
        (run_ai_relevance_scoring s1 task_id user_id false t2 orc2).1 =
          RunResult.skipped "already_processed" task_id ∧
        (run_ai_relevance_scoring s1 task_id user_id false t2 orc2).2.2 = false) := by
  constructor
  · intro task now hst huid hpri tla hla hwin
    subst hst
    have hskip : should_skip_scoring task now = true := by
      simp [should_skip_scoring, hpri, hla, hwin]
    simp only [run_ai_relevance_scoring]
    rw [if_neg (not_ne_iff.mpr huid), if_pos ⟨by simp, hskip⟩]
  · intro t1 t2 orc2 r1 s1 i1 hrun hscored hwin
    obtain ⟨c, hc⟩ := hscored
    subst hc
    cases store with
    | none =>
      simp only [run_ai_relevance_scoring] at hrun
      injection hrun with ha hbc
      exact absurd ha.symm (by simp)
    | some task =>
      simp only [run_ai_relevance_scoring] at hrun
      split_ifs at hrun with h1 h2
      · injection hrun with ha hbc
        exact absurd ha.symm (by simp)
      · injection hrun with ha hbc
        exact absurd ha.symm (by simp)
      · injection hrun with ha hbc
        injection hbc with hb hi
        subst hb
        refine ⟨hi.symm, ?_, ?_⟩ <;>
        · have huid : task.user_id = user_id := not_ne_iff.mp h1
          simp [run_ai_relevance_scoring, should_skip_scoring, huid, hwin]

/-- Witness for C4: a freshly analyzed prioritized task is skipped, and a
successful run followed by a second run within the window invokes the
Orchestrator exactly once. -/
theorem c4_worker_idempotency_witness :
    (run_ai_relevance_scoring
        (some (TaskRow.mk 1 "t" none none none 0 0 0 none "" true (some 0)))
        5 1 false 10
        (Contract.mk [] 0 0 0 "Q4" "" "fallback" none none) =
      (RunResult.skipped "already_processed" 5,
        some (TaskRow.mk 1 "t" none none none 0 0 0 none "" true (some 0)), false)) := by
  have h := (c4_worker_idempotency
    (some (TaskRow.mk 1 "t" none none none 0 0 0 none "" true (some 0))) 5 1
    (Contract.mk [] 0 0 0 "Q4" "" "fallback" none none)).1
    (TaskRow.mk 1 "t" none none none 0 0 0 none "" true (some 0)) 10 rfl rfl rfl
    0 rfl (by norm_num)
  exact h
